import Mathlib

/-!
Verification development for the stock scoring/valuation engine of this
repository (`app.py`).  The pure computational core — the technical-indicator
library (`TechnicalAnalysis`), the valuation library (`ValuationModels`),
the macro and sentiment classifiers, and the composite scorer inside
`StockInfoAPI.generate_ai_analysis` — is shallowly embedded here.

Conventions of the embedding:
* Python floats are modelled by `ℚ` (the computations are field arithmetic;
  the one square root, in Bollinger bands, is modelled over `ℝ`).
* A Python value that may be absent / non-numeric (`None`, `'N/A'`, a failed
  `isinstance` check) is an `Option ℚ`; `none` means "missing".
* A Python statement that raises `ZeroDivisionError` is modelled explicitly:
  the IEEE edge cases (division of a nonzero float by `0.0` inside a pandas
  Series or between numpy float64 scalars yields `±inf`, `0.0/0.0` yields
  `NaN`, while a division of plain Python scalars by zero raises) are written
  out at each site with a comment.
-/

/-! ## Generic list helpers used by the pandas-style rolling computations -/

/-- The trailing `n` elements of a list (pandas `.rolling(n)` at the last row,
`.iloc[-n:]`). -/
def takeLast (n : ℕ) (l : List ℚ) : List ℚ := l.drop (l.length - n)

/-- Day-over-day differences, `series.diff()` with the leading NaN dropped:
`diffs [x0, x1, ..., xk] = [x1 - x0, ..., xk - x(k-1)]`. -/
def diffs : List ℚ → List ℚ
  | [] => []
  | [_] => []
  | a :: b :: t => (b - a) :: diffs (b :: t)

/-- Arithmetic mean of a list (0 for the empty list, which never occurs under
the guards of the indicator functions). -/
def listMean (l : List ℚ) : ℚ := l.sum / (l.length : ℚ)

/-- Maximum of a list, defaulting to 0 on the empty list (never hit under the
guards). -/
def listMaxD : List ℚ → ℚ
  | [] => 0
  | x :: xs => xs.foldl max x

/-- Minimum of a list, defaulting to 0 on the empty list (never hit under the
guards). -/
def listMinD : List ℚ → ℚ
  | [] => 0
  | x :: xs => xs.foldl min x

/-- `series.iloc[-1]`, defaulting to 0 on the empty list. -/
def lastD (l : List ℚ) : ℚ := l.getLastD 0

/-- The sign of a rational, as in `np.sign` (−1, 0 or 1). -/
def signQ (x : ℚ) : ℚ := if 0 < x then 1 else if x < 0 then -1 else 0

/-- `ewm(span, adjust=False).mean()` as a list: the standard recursive
exponential smoothing `e_t = α·x_t + (1−α)·e_(t−1)` seeded by the first
value, with `α` passed explicitly (the caller supplies `2/(span+1)`). -/
def ewmMeanAux (α : ℚ) (prev : ℚ) : List ℚ → List ℚ
  | [] => []
  | x :: xs => (α * x + (1 - α) * prev) :: ewmMeanAux α (α * x + (1 - α) * prev) xs

/-- Exponential moving-average series, seeded by the first element. -/
def ewmMean (α : ℚ) : List ℚ → List ℚ
  | [] => []
  | x :: xs => x :: ewmMeanAux α x xs

/-! ## Indicator Library (`TechnicalAnalysis` in `app.py`) -/

/-- `TechnicalAnalysis.calculate_rsi`.  The source computes
`rs = gain/loss; rsi = 100 - 100/(1+rs)` on pandas Series: when the average
loss is `0.0` and the average gain is positive, `rs` is `+inf` and the RSI
evaluates to the float `100.0` (which is NOT NaN, so it is returned); when
both averages are `0.0`, `rs` is NaN, the RSI is NaN and `None` is returned.
Those two IEEE cases are written out explicitly below. -/
def calculate_rsi (prices : List ℚ) (period : ℕ) : Option ℚ :=
  if prices.length < period + 1 then none
  else
    let window := takeLast period (diffs prices)
    let avg_gain := (window.map (fun d => if 0 < d then d else 0)).sum / (period : ℚ)
    let avg_loss := (window.map (fun d => if d < 0 then -d else 0)).sum / (period : ℚ)
    if avg_loss = 0 then (if avg_gain = 0 then none else some 100)
    else some (100 - 100 / (1 + avg_gain / avg_loss))

/-- Result record of `TechnicalAnalysis.calculate_macd` (all three fields are
always numeric once the length guard passes: `ewm` with `adjust=False`
produces no NaN). -/
structure MACDResult where
  macd : ℚ
  signal : ℚ
  histogram : ℚ
deriving DecidableEq

/-- `TechnicalAnalysis.calculate_macd`. -/
def calculate_macd (prices : List ℚ) (fast slow signal : ℕ) : Option MACDResult :=
  if prices.length < slow then none
  else
    let ema_fast := ewmMean (2 / ((fast : ℚ) + 1)) prices
    let ema_slow := ewmMean (2 / ((slow : ℚ) + 1)) prices
    let macd_line := List.zipWith (fun a b => a - b) ema_fast ema_slow
    let signal_line := ewmMean (2 / ((signal : ℚ) + 1)) macd_line
    let histogram := List.zipWith (fun a b => a - b) macd_line signal_line
    some { macd := lastD macd_line, signal := lastD signal_line, histogram := lastD histogram }

/-- Result record of `TechnicalAnalysis.calculate_moving_averages`.  Each
field mirrors one key of the returned dict; `none` is the dict value `None`. -/
structure MovingAverages where
  sma_20 : Option ℚ
  sma_50 : Option ℚ
  sma_200 : Option ℚ
  ema_12 : Option ℚ
  ema_26 : Option ℚ
deriving DecidableEq

/-- `TechnicalAnalysis.calculate_moving_averages`.  `none` (the whole record)
models the `return {}` taken whenever the series is shorter than 200 points;
the per-window conditionals inside the dict are reproduced although they are
all trivially true once the outer guard has passed. -/
def calculate_moving_averages (prices : List ℚ) : Option MovingAverages :=
  if prices.length < 200 then none
  else some {
    sma_20 := if 20 ≤ prices.length then some (listMean (takeLast 20 prices)) else none,
    sma_50 := if 50 ≤ prices.length then some (listMean (takeLast 50 prices)) else none,
    sma_200 := if 200 ≤ prices.length then some (listMean (takeLast 200 prices)) else none,
    ema_12 := if 12 ≤ prices.length then some (lastD (ewmMean (2 / 13) prices)) else none,
    ema_26 := if 26 ≤ prices.length then some (lastD (ewmMean (2 / 27) prices)) else none }

/-- Result record of `TechnicalAnalysis.calculate_bollinger_bands`.  The
standard deviation forces `ℝ`; `bandwidth` is `None` in the source when the
middle band is not positive. -/
structure BollingerBands where
  upper : ℝ
  middle : ℝ
  lower : ℝ
  percent_b : ℝ
  bandwidth : Option ℝ

/-- Sample variance of the trailing window, pandas `.rolling(n).std()` with
the default `ddof=1`, before the square root. -/
def sampleVar (window : List ℚ) : ℚ :=
  (window.map (fun x => (x - listMean window) ^ 2)).sum / ((window.length : ℚ) - 1)

/-- `TechnicalAnalysis.calculate_bollinger_bands`. -/
noncomputable def calculate_bollinger_bands (prices : List ℚ) (period : ℕ) (std_dev : ℚ) :
    Option BollingerBands :=
  if prices.length < period then none
  else
    let window := takeLast period prices
    let middle : ℝ := (listMean window : ℚ)
    let std : ℝ := Real.sqrt ((sampleVar window : ℚ) : ℝ)
    let upper : ℝ := middle + std * (std_dev : ℚ)
    let lower : ℝ := middle - std * (std_dev : ℚ)
    let current : ℝ := (lastD prices : ℚ)
    some {
      upper := upper, middle := middle, lower := lower,
      percent_b := if upper ≠ lower then (current - lower) / (upper - lower) * 100 else 50,
      bandwidth := if 0 < middle then some ((upper - lower) / middle * 100) else none }

/-- Result record of `TechnicalAnalysis.calculate_stochastic`: the source
returns a dict whose `'k'`/`'d'` entries are `None` when the corresponding
pandas value is NaN. -/
structure StochasticResult where
  k : Option ℚ
  d : Option ℚ
deriving DecidableEq

/-- The %K value at row `i` (trailing `period`-window), or `none` when the
window is incomplete (pandas NaN) or the window is flat.  In the source a
flat window gives `0/0 = NaN` when the close sits at the common level (the
usual case, reported as `None`); the off-scale `±inf` obtained when the close
lies outside a flat high/low window is collapsed to `none` as well. -/
def stochKAt (high low close : List ℚ) (period i : ℕ) : Option ℚ :=
  if i + 1 < period then none
  else
    let hh := listMaxD (takeLast period (high.take (i + 1)))
    let ll := listMinD (takeLast period (low.take (i + 1)))
    let c := close.getD i 0
    if hh = ll then none else some (100 * ((c - ll) / (hh - ll)))

/-- `TechnicalAnalysis.calculate_stochastic`; `%D` is the 3-row rolling mean
of `%K`, NaN (hence `none`) when fewer than three %K values exist. -/
def calculate_stochastic (high low close : List ℚ) (period : ℕ) : Option StochasticResult :=
  if close.length < period then none
  else
    let n := close.length
    let d :=
      if n < 3 then none
      else
        match stochKAt high low close period (n - 1), stochKAt high low close period (n - 2),
            stochKAt high low close period (n - 3) with
        | some a, some b, some c => some ((a + b + c) / 3)
        | _, _, _ => none
    some { k := stochKAt high low close period (n - 1), d := d }

/-- True range at row `i`: at row 0 the previous close is NaN, and the
pandas `concat(...).max(axis=1)` skips the NaN columns, leaving `high−low`. -/
def trueRangeAt (high low close : List ℚ) (i : ℕ) : ℚ :=
  let hi := high.getD i 0
  let lo := low.getD i 0
  if i = 0 then hi - lo
  else max (hi - lo) (max |hi - close.getD (i - 1) 0| |lo - close.getD (i - 1) 0|)

/-- `TechnicalAnalysis.calculate_atr`: rolling mean of the true range. -/
def calculate_atr (high low close : List ℚ) (period : ℕ) : Option ℚ :=
  if close.length < period + 1 then none
  else some (listMean (takeLast period ((List.range close.length).map (trueRangeAt high low close))))

/-- `TechnicalAnalysis.calculate_obv`: cumulative signed volume; the leading
NaN of `close.diff()` is `fillna(0)`. -/
def calculate_obv (close volume : List ℚ) : Option ℚ :=
  if close.length < 2 then none
  else some (((List.range close.length).map (fun i =>
    if i = 0 then 0
    else signQ (close.getD i 0 - close.getD (i - 1) 0) * volume.getD i 0)).sum)

/-- `TechnicalAnalysis.calculate_momentum`: `prices.diff(period).iloc[-1]`. -/
def calculate_momentum (prices : List ℚ) (period : ℕ) : Option ℚ :=
  if prices.length < period + 1 then none
  else some (lastD prices - prices.getD (prices.length - 1 - period) 0)

/-! ## Valuation Library (`ValuationModels` in `app.py`) -/

/-- The record built by `ValuationModels.calculate_dcf` on success (the
`'assumptions'` sub-dict is flattened into the last four fields). -/
structure DCFResult where
  enterprise_value : ℚ
  equity_value_per_share : Option ℚ
  pv_cash_flows : ℚ
  pv_terminal : ℚ
  growth_rate : ℚ
  terminal_growth : ℚ
  discount_rate : ℚ
  years : ℕ
deriving DecidableEq

/-- Outcome of `ValuationModels.calculate_dcf`: `unavailable` is the `return
None` taken for non-positive free cash flow; `raises` is an uncaught
`ZeroDivisionError` (the source divides by `discount_rate −
terminal_growth_rate` with no guard, and by `(1+discount_rate)**year`). -/
inductive DCFRes where
  | unavailable
  | raises
  | ok (res : DCFResult)
deriving DecidableEq

/-- Present value of the explicit-horizon cash flows: the source loop
compounds `current_fcf` by `(1+growth)` and discounts each year. -/
def dcf_pv_cash_flows (fcf g r : ℚ) (years : ℕ) : ℚ :=
  (List.range years).foldl
    (fun acc y => acc + fcf * (1 + g) ^ (y + 1) / (1 + r) ^ (y + 1)) 0

/-- Present value of the Gordon-growth terminal value. -/
def dcf_pv_terminal (fcf g tg r : ℚ) (years : ℕ) : ℚ :=
  fcf * (1 + g) ^ years * (1 + tg) / (r - tg) / (1 + r) ^ years

/-- `ValuationModels.calculate_dcf`.  The Python `isinstance` defaults for
non-numeric growth/discount arguments are outside this model (all arguments
here are numbers, as in the claim).  The `raises` branch records the two
unguarded scalar divisions by zero of the source: `discount_rate -
terminal_growth_rate == 0.0` in the terminal value, and `(1+discount_rate)
** year == 0.0` in the projection loop (only reachable for `years ≥ 1`). -/
def calculate_dcf (free_cash_flow growth_rate terminal_growth_rate discount_rate : ℚ)
    (years : ℕ) (shares_outstanding : Option ℚ) : DCFRes :=
  if free_cash_flow ≤ 0 then DCFRes.unavailable
  else if discount_rate - terminal_growth_rate = 0 ∨ (1 ≤ years ∧ 1 + discount_rate = 0) then
    DCFRes.raises
  else
    let pv := dcf_pv_cash_flows free_cash_flow growth_rate discount_rate years
    let pvT := dcf_pv_terminal free_cash_flow growth_rate terminal_growth_rate discount_rate years
    let ev := pv + pvT
    DCFRes.ok {
      enterprise_value := ev,
      equity_value_per_share :=
        match shares_outstanding with
        | some s => if 0 < s then some (ev / s) else none
        | none => none,
      pv_cash_flows := pv,
      pv_terminal := pvT,
      growth_rate := growth_rate,
      terminal_growth := terminal_growth_rate,
      discount_rate := discount_rate,
      years := years }

/-- The flat fundamentals record (`info` dict): every field optional. -/
structure Info where
  trailingPE : Option ℚ
  forwardPE : Option ℚ
  pegRatio : Option ℚ
  priceToBook : Option ℚ
  priceToSalesTrailing12Months : Option ℚ
  profitMargins : Option ℚ
  returnOnEquity : Option ℚ
  returnOnAssets : Option ℚ
  debtToEquity : Option ℚ
  currentRatio : Option ℚ
  revenueGrowth : Option ℚ
  earningsQuarterlyGrowth : Option ℚ
  marketCap : Option ℚ
  beta : Option ℚ
  targetMeanPrice : Option ℚ
  freeCashflow : Option ℚ
  sharesOutstanding : Option ℚ
  heldPercentInstitutions : Option ℚ
  averageVolume : Option ℚ
  volume : Option ℚ
  recommendationKey : Option String
deriving DecidableEq

/-- The record built by `ValuationModels.calculate_relative_valuation`.  The
source stores the three `*_vs_market` entries as formatted strings (or
`'N/A'`); the numeric percentage behind each string is kept here, `none`
standing for `'N/A'`. -/
structure RelAssessment where
  pe_vs_market : Option ℚ
  pb_vs_market : Option ℚ
  ps_vs_market : Option ℚ
  overall_valuation : String
  premium_discount : ℚ
deriving DecidableEq

/-- `ValuationModels.calculate_relative_valuation` (the `sector_pe` /
`industry_pe` parameters of the source are never read). -/
def calculate_relative_valuation (info : Info) : RelAssessment :=
  let peTerm : ℚ := match info.trailingPE with
    | some p => if 0 < p then (p / 22.5 * 100 - 100) / 3 else 0
    | none => 0
  let pbTerm : ℚ := match info.priceToBook with
    | some p => if 0 < p then (p / 3.5 * 100 - 100) / 3 else 0
    | none => 0
  let psTerm : ℚ := match info.priceToSalesTrailing12Months with
    | some p => if 0 < p then (p / 2.5 * 100 - 100) / 3 else 0
    | none => 0
  let premium := peTerm + pbTerm + psTerm
  { pe_vs_market := match info.trailingPE with
      | some p => if 0 < p then some (p / 22.5 * 100) else none
      | none => none,
    pb_vs_market := match info.priceToBook with
      | some p => if 0 < p then some (p / 3.5 * 100) else none
      | none => none,
    ps_vs_market := match info.priceToSalesTrailing12Months with
      | some p => if 0 < p then some (p / 2.5 * 100) else none
      | none => none,
    overall_valuation :=
      if 20 < premium then "EXPENSIVE"
      else if 10 < premium then "SLIGHTLY EXPENSIVE"
      else if -10 < premium then "FAIR"
      else if -20 < premium then "SLIGHTLY CHEAP"
      else "CHEAP",
    premium_discount := premium }

/-! ## Macro Classifier (`MacroEconomicAnalysis` in `app.py`) -/

/-- Case-insensitive text as a character list; `s.lower()`. -/
def lowerChars (s : String) : List Char := s.toList.map Char.toLower

/-- Whether `n` begins `h` (helper for substring search). -/
def leadsWith : List Char → List Char → Bool
  | [], _ => true
  | _ :: _, [] => false
  | a :: as, b :: bs => a == b && leadsWith as bs

/-- Whether `n` occurs contiguously inside `h`; Python `n in h` on strings. -/
def containsSeq (n : List Char) : List Char → Bool
  | [] => n.isEmpty
  | c :: t => leadsWith n (c :: t) || containsSeq n t

/-- Python `needle in hay` for a literal needle against lowered text. -/
def hasSub (needle : String) (hay : List Char) : Bool := containsSeq needle.toList hay

/-- The dict built by `MacroEconomicAnalysis.analyze_macro_environment`. -/
structure MacroEnv where
  sectorOutlook : String
  economicPressures : List String
  marketConditions : String
  interestRateSensitivity : String
  inflationImpact : String
  recessionResilience : String
deriving DecidableEq

/-- `MacroEconomicAnalysis.analyze_macro_environment`: a first-match rule
table keyed on lowercase substrings of sector/industry, then an independent
beta-keyed adjustment of `market_conditions`.  The `ticker_obj.info` read in
the source is the same fundamentals record, passed here directly. -/
def analyzeMacroEnvironment (info : Info) (sector industry : String) : MacroEnv :=
  let s := lowerChars sector
  let i := lowerChars industry
  let base : MacroEnv :=
    if hasSub "technology" s || hasSub "software" i || hasSub "semiconductor" i then
      { sectorOutlook := "POSITIVE",
        economicPressures := ["Technology sector benefits from digital transformation trends"],
        marketConditions := "NEUTRAL", interestRateSensitivity := "HIGH",
        inflationImpact := "MEDIUM", recessionResilience := "LOW-MEDIUM" }
    else if hasSub "financial" s || hasSub "bank" i then
      { sectorOutlook := "NEUTRAL",
        economicPressures := ["Financial sector highly sensitive to interest rate changes"],
        marketConditions := "NEUTRAL", interestRateSensitivity := "VERY HIGH",
        inflationImpact := "MEDIUM", recessionResilience := "LOW" }
    else if hasSub "consumer" s && hasSub "discretionary" s then
      { sectorOutlook := "CAUTIOUS",
        economicPressures := ["Consumer discretionary sensitive to economic cycles"],
        marketConditions := "NEUTRAL", interestRateSensitivity := "MEDIUM",
        inflationImpact := "HIGH", recessionResilience := "LOW" }
    else if hasSub "consumer" s && hasSub "staples" s then
      { sectorOutlook := "STABLE",
        economicPressures := ["Consumer staples provide defensive characteristics"],
        marketConditions := "NEUTRAL", interestRateSensitivity := "MEDIUM",
        inflationImpact := "MEDIUM", recessionResilience := "HIGH" }
    else if hasSub "healthcare" s || hasSub "health" s then
      { sectorOutlook := "POSITIVE",
        economicPressures := ["Healthcare sector shows defensive characteristics"],
        marketConditions := "NEUTRAL", interestRateSensitivity := "MEDIUM",
        inflationImpact := "LOW-MEDIUM", recessionResilience := "HIGH" }
    else if hasSub "energy" s || hasSub "oil" i then
      { sectorOutlook := "VOLATILE",
        economicPressures := ["Energy sector subject to commodity price volatility"],
        marketConditions := "NEUTRAL", interestRateSensitivity := "MEDIUM",
        inflationImpact := "HIGH", recessionResilience := "MEDIUM" }
    else if hasSub "utilities" s then
      { sectorOutlook := "STABLE",
        economicPressures := ["Utilities provide stable dividends but sensitive to rates"],
        marketConditions := "NEUTRAL", interestRateSensitivity := "HIGH",
        inflationImpact := "MEDIUM", recessionResilience := "HIGH" }
    else if hasSub "real estate" s || hasSub "reit" i then
      { sectorOutlook := "CAUTIOUS",
        economicPressures :=
          ["Real estate highly sensitive to interest rates and economic cycles"],
        marketConditions := "NEUTRAL", interestRateSensitivity := "VERY HIGH",
        inflationImpact := "MEDIUM", recessionResilience := "LOW-MEDIUM" }
    else
      { sectorOutlook := "NEUTRAL", economicPressures := [],
        marketConditions := "NEUTRAL", interestRateSensitivity := "MEDIUM",
        inflationImpact := "MEDIUM", recessionResilience := "MEDIUM" }
  let beta := info.beta.getD 1
  if 13 / 10 < beta then
    { base with
      marketConditions := "HIGH VOLATILITY",
      economicPressures :=
        base.economicPressures ++ ["High beta indicates high market sensitivity"] }
  else if beta < 7 / 10 then
    { base with
      marketConditions := "LOW VOLATILITY",
      economicPressures :=
        base.economicPressures ++ ["Low beta indicates defensive characteristics"] }
  else base

/-! ## Sentiment Classifier (`SocialSentimentAnalysis` in `app.py`) -/

/-- Retail / institutional interest levels. -/
inductive Interest where
  | low
  | medium
  | high
deriving DecidableEq

/-- Analyst sentiment label. -/
inductive AnalystSent where
  | bearish
  | neutral
  | bullish
deriving DecidableEq

/-- Price-momentum sentiment label. -/
inductive MomSent where
  | veryBearish
  | bearish
  | neutral
  | bullish
  | veryBullish
deriving DecidableEq

/-- Overall sentiment bucket. -/
inductive OverallSent where
  | bearish
  | slightlyBearish
  | neutral
  | slightlyBullish
  | bullish
deriving DecidableEq

/-- The dict built by `SocialSentimentAnalysis.analyze_sentiment`; `score`
is the local `sentiment_score` variable that drives the overall bucket (the
source does not return it, but the bucket is a pure function of it). -/
structure Sentiment where
  overall_sentiment : OverallSent
  retail_interest : Interest
  institutional_interest : Interest
  analyst_sentiment : AnalystSent
  momentum_sentiment : MomSent
  score : ℤ
deriving DecidableEq

/-- Volume-ratio classification: `info.get('averageVolume', 0)` and
`info.get('volume', 0)`, ratio taken only when the average is positive. -/
def retailInterestOf (info : Info) : Interest :=
  let avg := info.averageVolume.getD 0
  let cur := info.volume.getD 0
  if 0 < avg then
    if 3 / 2 < cur / avg then Interest.high
    else if cur / avg < 7 / 10 then Interest.low
    else Interest.medium
  else Interest.medium

/-- Python `str.upper()` as a character-wise map (the byte-position-based
`String.toUpper` of core computes the same function on these inputs). -/
def upperStr (s : String) : String := String.mk (s.data.map Char.toUpper)

/-- Analyst-recommendation classification (`recommendationKey`, uppercased;
a missing or empty key is the empty string). -/
def analystSentOf (info : Info) : AnalystSent :=
  let rk := (info.recommendationKey.map upperStr).getD ""
  if rk = "STRONG_BUY" ∨ rk = "BUY" then AnalystSent.bullish
  else if rk = "STRONG_SELL" ∨ rk = "SELL" then AnalystSent.bearish
  else AnalystSent.neutral

/-- 20-row trailing price-return classification.  The operands of the
division at line 402 of the source are numpy float64 scalars (from `.iloc`),
so a zero base close does not raise: the return is `+inf` (classified VERY
BULLISH), `-inf` (all greater-than tests fail, `< -10` holds: VERY BEARISH)
or `0.0/0.0 = NaN` (every comparison false, the label stays NEUTRAL).  Those
three IEEE cases are written out in the `base = 0` branch. -/
def momentumSentOf (hist : List ℚ) : MomSent :=
  if hist.length < 20 then MomSent.neutral
  else
    let base := hist.getD (hist.length - 20) 0
    if base = 0 then
      if 0 < lastD hist then MomSent.veryBullish
      else if lastD hist < 0 then MomSent.veryBearish
      else MomSent.neutral
    else
      let r := (lastD hist - base) / base * 100
      if 10 < r then MomSent.veryBullish
      else if 5 < r then MomSent.bullish
      else if r < -10 then MomSent.veryBearish
      else if r < -5 then MomSent.bearish
      else MomSent.neutral

/-- Institutional-ownership classification (`heldPercentInstitutions`). -/
def instInterestOf (info : Info) : Interest :=
  match info.heldPercentInstitutions with
  | some i => if 70 < i then Interest.high else if i < 30 then Interest.low else Interest.medium
  | none => Interest.medium

/-- The additive `sentiment_score` of the source: ±30 analyst, ±25 momentum
(very-bullish/bullish collapse, likewise bearish), ±20 retail, +25/−15
institutional. -/
def sentimentScoreOf (a : AnalystSent) (m : MomSent) (r : Interest) (i : Interest) : ℤ :=
  (if a = AnalystSent.bullish then 30 else if a = AnalystSent.bearish then -30 else 0) +
  (if m = MomSent.veryBullish ∨ m = MomSent.bullish then 25
    else if m = MomSent.veryBearish ∨ m = MomSent.bearish then -25 else 0) +
  (if r = Interest.high then 20 else if r = Interest.low then -20 else 0) +
  (if i = Interest.high then 25 else if i = Interest.low then -15 else 0)

/-- Overall sentiment bucket of a numeric score. -/
def overallSentOf (s : ℤ) : OverallSent :=
  if 40 < s then OverallSent.bullish
  else if 15 < s then OverallSent.slightlyBullish
  else if s < -40 then OverallSent.bearish
  else if s < -15 then OverallSent.slightlyBearish
  else OverallSent.neutral

/-- `SocialSentimentAnalysis.analyze_sentiment` (total: every arithmetic in
it is either guarded or numpy float arithmetic that cannot raise; the
`ticker` string argument of the source is never used in the computation). -/
def analyze_sentiment (info : Info) (hist : List ℚ) : Sentiment :=
  let m := momentumSentOf hist
  let r := retailInterestOf info
  let a := analystSentOf info
  let i := instInterestOf info
  let sc := sentimentScoreOf a m r i
  { overall_sentiment := overallSentOf sc,
    retail_interest := r,
    institutional_interest := i,
    analyst_sentiment := a,
    momentum_sentiment := m,
    score := sc }

/-! ## Composite Scorer (`StockInfoAPI.generate_ai_analysis` in `app.py`)

The scorer reads a pre-computed `stock_data` snapshot (current price, the
latest indicator values, formatted return strings), the raw fundamentals
`info`, the historical close series and the optional ticker handle.  They
are bundled into one input record.  Each checklist factor of the source is
one function returning `(points earned, points possible)`; blocks whose
`*_max` increment is unconditional in the source return a positive
"possible" component even on missing data. -/

/-- One analysis request: the `stock_data` snapshot fields used by the
scorer, the fundamentals record, the close history and whether a ticker
handle was passed (`ticker_obj is not None`).  `oneYearReturn` /
`fiveYearReturn` hold the numeric value parsed from the formatted
percentage string, `none` when the string is absent or unparsable. -/
structure StockBundle where
  currentPrice : Option ℚ
  rsi : Option ℚ
  priceVsSMA200 : Option ℚ
  priceVsSMA50 : Option ℚ
  priceVsSMA20 : Option ℚ
  macd : Option ℚ
  macdSignal : Option ℚ
  macdHistogram : Option ℚ
  bbPercentB : Option ℚ
  stochK : Option ℚ
  stochD : Option ℚ
  volumeRatio : Option ℚ
  momentum : Option ℚ
  oneYearReturn : Option ℚ
  fiveYearReturn : Option ℚ
  sector : String
  industry : String
  tickerPresent : Bool
  info : Info
  hist : List ℚ
deriving DecidableEq

/-- `current_price` after the source's string/`'N/A'` coercion to 0. -/
def effPrice (b : StockBundle) : ℚ := b.currentPrice.getD 0

/-- RSI factor: the only technical factor whose 20 possible points are added
conditionally. -/
def techFactorRSI (b : StockBundle) : ℤ × ℤ :=
  match b.rsi with
  | some r => (if 30 ≤ r ∧ r ≤ 70 then 15 else if r < 30 then 20 else 5, 20)
  | none => (0, 0)

/-- One `price_vs_smaN` contribution: the source tests `price_vs_smaN and
isinstance(...)`, so a value of exactly 0 is falsy and earns nothing. -/
def smaPoints (v : Option ℚ) (above below : ℤ) : ℤ :=
  match v with
  | some x => if x = 0 then 0 else if 0 < x then above else below
  | none => 0

/-- Moving-average factor: `tech_max += 25` is unconditional. -/
def techFactorSMA (b : StockBundle) : ℤ × ℤ :=
  (smaPoints b.priceVsSMA200 10 2 + smaPoints b.priceVsSMA50 8 3 +
    smaPoints b.priceVsSMA20 7 3, 25)

/-- MACD factor: `tech_max += 15` is unconditional; line-vs-signal and
histogram-sign points are awarded independently. -/
def techFactorMACD (b : StockBundle) : ℤ × ℤ :=
  ((match b.macd, b.macdSignal with
    | some m, some s => if s < m then 10 else 3
    | _, _ => 0) +
   (match b.macdHistogram with
    | some h => if 0 < h then 5 else 1
    | none => 0), 15)

/-- Bollinger %B factor: `tech_max += 10` is unconditional. -/
def techFactorBB (b : StockBundle) : ℤ × ℤ :=
  (match b.bbPercentB with
   | some p => if 20 ≤ p ∧ p ≤ 80 then 10 else if p < 20 then 8 else 5
   | none => 0, 10)

/-- Stochastic factor: `tech_max += 10` is unconditional; the if/elif chain
can fall through with 0 points (e.g. `%K ≥ 80` above the signal). -/
def techFactorStoch (b : StockBundle) : ℤ × ℤ :=
  (match b.stochK, b.stochD with
   | some k, some d =>
     if d < k ∧ k < 80 then 8 else if k < d ∧ 20 < k then 3 else if k < 20 then 7 else 0
   | _, _ => 0, 10)

/-- Volume-ratio factor (percentage units): `tech_max += 10` unconditional;
a ratio in [80,120] earns nothing. -/
def techFactorVolume (b : StockBundle) : ℤ × ℤ :=
  (match b.volumeRatio with
   | some v => if 120 < v then 8 else if v < 80 then 3 else 0
   | none => 0, 10)

/-- Momentum factor: `tech_max += 10` unconditional. -/
def techFactorMomentum (b : StockBundle) : ℤ × ℤ :=
  (match b.momentum with
   | some m => if 0 < m then 8 else 2
   | none => 0, 10)

/-- Running totals `(tech_score, tech_max)` after the whole checklist. -/
def techPair (b : StockBundle) : ℤ × ℤ :=
  ((techFactorRSI b).1 + (techFactorSMA b).1 + (techFactorMACD b).1 + (techFactorBB b).1 +
    (techFactorStoch b).1 + (techFactorVolume b).1 + (techFactorMomentum b).1,
   (techFactorRSI b).2 + (techFactorSMA b).2 + (techFactorMACD b).2 + (techFactorBB b).2 +
    (techFactorStoch b).2 + (techFactorVolume b).2 + (techFactorMomentum b).2)

/-- `(score / max * 100) if max > 0 else 50`, the normalization used by
every sub-score. -/
def ratioScore (e m : ℤ) : ℚ := if 0 < m then (e : ℚ) / (m : ℚ) * 100 else 50

/-- `scores['technical']` (line 663 of the source; never clamped). -/
def technicalScore (b : StockBundle) : ℚ := ratioScore (techPair b).1 (techPair b).2

/-- P/E factor of the fundamental block: `fund_max += 20` unconditional; a
P/E in (25,30] earns nothing. -/
def fundFactorPE (b : StockBundle) : ℤ × ℤ :=
  (match b.info.trailingPE with
   | some p =>
     if 0 < p then
       (if 10 ≤ p ∧ p ≤ 25 then 15 else if p < 10 then 18 else if 30 < p then 5 else 0)
     else 0
   | none => 0, 20)

/-- PEG factor of the fundamental block: `fund_max += 15` conditional. -/
def fundFactorPEG (b : StockBundle) : ℤ × ℤ :=
  match b.info.pegRatio with
  | some p =>
    if 0 < p then (if p < 1 then 15 else if 1 ≤ p ∧ p ≤ 2 then 10 else 3, 15) else (0, 0)
  | none => (0, 0)

/-- Profit-margin / ROE block: `fund_max += 20` unconditional. -/
def fundFactorHealth (b : StockBundle) : ℤ × ℤ :=
  ((match b.info.profitMargins with
    | some m => if 3 / 20 < m then 8 else if 0 < m then 5 else 1
    | none => 0) +
   (match b.info.returnOnEquity with
    | some r => if 3 / 20 < r then 6 else if 0 < r then 3 else 1
    | none => 0), 20)

/-- Debt-to-equity factor: `fund_max += 10` conditional. -/
def fundFactorDebt (b : StockBundle) : ℤ × ℤ :=
  match b.info.debtToEquity with
  | some d => (if d < 1 then 10 else if d < 2 then 7 else 3, 10)
  | none => (0, 0)

/-- Current-ratio factor: `fund_max += 10` conditional; a ratio in [1,1.5)
or above 3 earns nothing. -/
def fundFactorCurrent (b : StockBundle) : ℤ × ℤ :=
  match b.info.currentRatio with
  | some c => (if 3 / 2 ≤ c ∧ c ≤ 3 then 10 else if c < 1 then 2 else 0, 10)
  | none => (0, 0)

/-- Revenue/earnings-growth block: `fund_max += 15` unconditional. -/
def fundFactorGrowth (b : StockBundle) : ℤ × ℤ :=
  ((match b.info.revenueGrowth with
    | some r => if 1 / 10 < r then 8 else if 0 < r then 5 else 1
    | none => 0) +
   (match b.info.earningsQuarterlyGrowth with
    | some e => if 3 / 20 < e then 7 else if 0 < e then 4 else 1
    | none => 0), 15)

/-- Market-cap / beta block: `fund_max += 10` unconditional. -/
def fundFactorMarket (b : StockBundle) : ℤ × ℤ :=
  ((match b.info.marketCap with
    | some m => if 10000000000 < m then 5 else 0
    | none => 0) +
   (match b.info.beta with
    | some β => if 4 / 5 ≤ β ∧ β ≤ 6 / 5 then 5 else if 3 / 2 < β then 2 else 0
    | none => 0), 10)

/-- Running totals `(fund_score, fund_max)` before the macro adjustment. -/
def fundPair (b : StockBundle) : ℤ × ℤ :=
  ((fundFactorPE b).1 + (fundFactorPEG b).1 + (fundFactorHealth b).1 + (fundFactorDebt b).1 +
    (fundFactorCurrent b).1 + (fundFactorGrowth b).1 + (fundFactorMarket b).1,
   (fundFactorPE b).2 + (fundFactorPEG b).2 + (fundFactorHealth b).2 + (fundFactorDebt b).2 +
    (fundFactorCurrent b).2 + (fundFactorGrowth b).2 + (fundFactorMarket b).2)

/-- The macro analysis of the request: `{}` (here `none`) when no ticker
handle was passed. -/
def macroEnvOf (b : StockBundle) : Option MacroEnv :=
  if b.tickerPresent then some (analyzeMacroEnvironment b.info b.sector b.industry) else none

/-- `fund_score` adjustment for the sector outlook (±5). -/
def sectorOutlookAdj (b : StockBundle) : ℤ :=
  match macroEnvOf b with
  | some m =>
    if m.sectorOutlook = "POSITIVE" then 5
    else if m.sectorOutlook = "CAUTIOUS" ∨ m.sectorOutlook = "VOLATILE" then -5 else 0
  | none => 0

/-- `fund_score` adjustment for recession resilience (±3). -/
def resilienceAdj (b : StockBundle) : ℤ :=
  match macroEnvOf b with
  | some m =>
    if m.recessionResilience = "HIGH" then 3
    else if m.recessionResilience = "LOW" then -3 else 0
  | none => 0

/-- 1-year-return factor: `momentum_max += 30` unconditional (the value is
parsed from a `'...%'` string; `none` = absent or unparsable). -/
def momFactorOneYear (b : StockBundle) : ℤ × ℤ :=
  (match b.oneYearReturn with
   | some r => if 20 < r then 20 else if 0 < r then 12 else 3
   | none => 0, 30)

/-- 5-year-return factor: `momentum_max += 20` unconditional. -/
def momFactorFiveYear (b : StockBundle) : ℤ × ℤ :=
  (match b.fiveYearReturn with
   | some r => if 50 < r then 20 else if 20 < r then 15 else if 0 < r then 8 else 2
   | none => 0, 20)

/-- Running totals `(momentum_score, momentum_max)` before the sentiment
adjustment. -/
def momPair (b : StockBundle) : ℤ × ℤ :=
  ((momFactorOneYear b).1 + (momFactorFiveYear b).1,
   (momFactorOneYear b).2 + (momFactorFiveYear b).2)

/-- `momentum_score` adjustment from overall sentiment (±10). -/
def sentimentAdj (b : StockBundle) : ℤ :=
  if (analyze_sentiment b.info b.hist).overall_sentiment = OverallSent.bullish then 10
  else if (analyze_sentiment b.info b.hist).overall_sentiment = OverallSent.bearish then -10
  else 0

/-- Value P/E factor: `value_max += 25` conditional on a positive P/E. -/
def valFactorPE (b : StockBundle) : ℤ × ℤ :=
  match b.info.trailingPE with
  | some p =>
    if 0 < p then
      (if p < 15 then 25 else if p < 20 then 18 else if p < 25 then 12 else 5, 25)
    else (0, 0)
  | none => (0, 0)

/-- Value price-to-book factor: conditional. -/
def valFactorPB (b : StockBundle) : ℤ × ℤ :=
  match b.info.priceToBook with
  | some p =>
    if 0 < p then
      (if p < 1 then 25 else if p < 2 then 18 else if p < 3 then 12 else 5, 25)
    else (0, 0)
  | none => (0, 0)

/-- Value PEG factor: conditional. -/
def valFactorPEG (b : StockBundle) : ℤ × ℤ :=
  match b.info.pegRatio with
  | some p =>
    if 0 < p then (if p < 4 / 5 then 25 else if p < 6 / 5 then 18 else 8, 25) else (0, 0)
  | none => (0, 0)

/-- Analyst-target upside factor: conditional on a known target and a
positive current price. -/
def valFactorTarget (b : StockBundle) : ℤ × ℤ :=
  match b.info.targetMeanPrice with
  | some t =>
    if 0 < effPrice b then
      ((fun up => if 20 < up then 25 else if 10 < up then 18 else if 0 < up then 12 else 5)
        ((t - effPrice b) / effPrice b * 100), 25)
    else (0, 0)
  | none => (0, 0)

/-- Running totals `(value_score, value_max)` before the DCF and
relative-valuation adjustments. -/
def valPair (b : StockBundle) : ℤ × ℤ :=
  ((valFactorPE b).1 + (valFactorPB b).1 + (valFactorPEG b).1 + (valFactorTarget b).1,
   (valFactorPE b).2 + (valFactorPB b).2 + (valFactorPEG b).2 + (valFactorTarget b).2)

/-- The discount rate estimated by the pipeline: `0.03 + beta * 0.07` with a
non-numeric beta defaulting to 1. -/
def discountRateOf (b : StockBundle) : ℚ := 3 / 100 + b.info.beta.getD 1 * (7 / 100)

/-- The growth rate of the pipeline: average of revenue and earnings growth
(each defaulting to 0.05), clamped to [0.02, 0.15]. -/
def growthRateOf (b : StockBundle) : ℚ :=
  min (max ((b.info.revenueGrowth.getD (1 / 20) + b.info.earningsQuarterlyGrowth.getD (1 / 20)) / 2)
    (1 / 50)) (3 / 20)

/-- The pipeline's DCF call: made only for a known positive free cash flow
(terminal growth fixed at 0.025, horizon 5 years). -/
def dcfOutcome (b : StockBundle) : Option DCFRes :=
  match b.info.freeCashflow with
  | some f =>
    if 0 < f then
      some (calculate_dcf f (growthRateOf b) (1 / 40) (discountRateOf b) 5
        b.info.sharesOutstanding)
    else none
  | none => none

/-- The per-share DCF price used by the adjustment; the dict-truthiness test
`dcf_result.get('equity_value_per_share')` drops an exact-zero value. -/
def dcfPrice (b : StockBundle) : Option ℚ :=
  match dcfOutcome b with
  | some (DCFRes.ok res) =>
    match res.equity_value_per_share with
    | some e => if e = 0 then none else some e
    | none => none
  | _ => none

/-- `value_score` adjustment from the DCF price (+15 / −10). -/
def dcfAdj (b : StockBundle) : ℤ :=
  match dcfPrice b with
  | some e =>
    if 0 < effPrice b then
      if effPrice b * (23 / 20) < e then 15
      else if e < effPrice b * (17 / 20) then -10 else 0
    else 0
  | none => 0

/-- `value_score` adjustment from the relative-valuation label (±10). -/
def relAdj (b : StockBundle) : ℤ :=
  if (calculate_relative_valuation b.info).overall_valuation = "CHEAP" then 10
  else if (calculate_relative_valuation b.info).overall_valuation = "EXPENSIVE" then -10 else 0

/-- Growth revenue factor: `growth_max += 30` conditional on presence. -/
def groFactorRevenue (b : StockBundle) : ℤ × ℤ :=
  match b.info.revenueGrowth with
  | some r => (if 1 / 5 < r then 30 else if 1 / 10 < r then 20 else if 0 < r then 12 else 3, 30)
  | none => (0, 0)

/-- Growth earnings factor: conditional. -/
def groFactorEarnings (b : StockBundle) : ℤ × ℤ :=
  match b.info.earningsQuarterlyGrowth with
  | some e => (if 1 / 4 < e then 30 else if 3 / 20 < e then 20 else if 0 < e then 12 else 3, 30)
  | none => (0, 0)

/-- Growth PEG factor: conditional on a positive PEG. -/
def groFactorPEG (b : StockBundle) : ℤ × ℤ :=
  match b.info.pegRatio with
  | some p => if 0 < p then (if p < 1 then 20 else if p < 3 / 2 then 15 else 5, 20) else (0, 0)
  | none => (0, 0)

/-- Forward-vs-trailing P/E factor: conditional on both being positive. -/
def groFactorForwardPE (b : StockBundle) : ℤ × ℤ :=
  match b.info.forwardPE, b.info.trailingPE with
  | some f, some t => if 0 < f ∧ 0 < t then (if f < t then 20 else 8, 20) else (0, 0)
  | _, _ => (0, 0)

/-- Running totals `(growth_score, growth_max)`. -/
def groPair (b : StockBundle) : ℤ × ℤ :=
  ((groFactorRevenue b).1 + (groFactorEarnings b).1 + (groFactorPEG b).1 +
    (groFactorForwardPE b).1,
   (groFactorRevenue b).2 + (groFactorEarnings b).2 + (groFactorPEG b).2 +
    (groFactorForwardPE b).2)

/-- `scores['growth']` (line 935 of the source; no adjustment, no clamp). -/
def growthScore (b : StockBundle) : ℚ := ratioScore (groPair b).1 (groPair b).2

/-- `max(0, min(100, ·))`, the clamp applied when value/fundamental/momentum
are recomputed after the adjustments. -/
def clamp01 (x : ℚ) : ℚ := max 0 (min 100 x)

/-- The five sub-scores of `analysis['scores']` (before the 1-decimal
display rounding, which is presentation only). -/
structure ScoreSet where
  technical : ℚ
  fundamental : ℚ
  momentum : ℚ
  value : ℚ
  growth : ℚ
deriving DecidableEq

/-- The ScoreSet as assembled at lines 663/935/1027–1029 of the source. -/
def scoresOf (b : StockBundle) : ScoreSet :=
  { technical := technicalScore b,
    fundamental :=
      clamp01 (ratioScore ((fundPair b).1 + sectorOutlookAdj b + resilienceAdj b) (fundPair b).2),
    momentum := clamp01 (ratioScore ((momPair b).1 + sentimentAdj b) (momPair b).2),
    value := clamp01 (ratioScore ((valPair b).1 + dcfAdj b + relAdj b) (valPair b).2),
    growth := growthScore b }

/-- True when the pipeline's DCF call raises `ZeroDivisionError`. -/
def dcfRaises (b : StockBundle) : Bool :=
  match dcfOutcome b with
  | some DCFRes.raises => true
  | _ => false

/-- The scores mapping of the returned analysis: when the pipeline's DCF
call raises its uncaught `ZeroDivisionError` (a scalar Python float
division), the broad `except` leaves `analysis['scores']` as the initial
empty dict (`none` here); otherwise the five sub-scores are returned.  The
sentiment step cannot raise (its division is numpy float arithmetic). -/
def pipelineScores (b : StockBundle) : Option ScoreSet :=
  if dcfRaises b then none else some (scoresOf b)

/-- The scores dict as an ordered key/value list (Python dict insertion
order). -/
def scoresList (s : ScoreSet) : List (String × ℚ) :=
  [("technical", s.technical), ("fundamental", s.fundamental), ("momentum", s.momentum),
   ("value", s.value), ("growth", s.growth)]

/-- The weights table of line 1032, including the two keys never present in
the scores mapping. -/
def weightsTable : List (String × ℚ) :=
  [("technical", 20 / 100), ("fundamental", 25 / 100), ("momentum", 15 / 100),
   ("value", 20 / 100), ("growth", 10 / 100), ("macro", 5 / 100), ("sentiment", 5 / 100)]

/-- `overall_score = sum(scores[key] * weights.get(key, 0) for key in scores
if key in weights)`. -/
def overallScoreOf (s : ScoreSet) : ℚ :=
  (scoresList s).foldl
    (fun acc kv =>
      if (List.lookup kv.1 weightsTable).isSome then
        acc + kv.2 * (List.lookup kv.1 weightsTable).getD 0
      else acc) 0

/-- A fundamentals record with every field absent. -/
def infoNone : Info :=
  { trailingPE := none, forwardPE := none, pegRatio := none, priceToBook := none,
    priceToSalesTrailing12Months := none, profitMargins := none, returnOnEquity := none,
    returnOnAssets := none, debtToEquity := none, currentRatio := none, revenueGrowth := none,
    earningsQuarterlyGrowth := none, marketCap := none, beta := none, targetMeanPrice := none,
    freeCashflow := none, sharesOutstanding := none, heldPercentInstitutions := none,
    averageVolume := none, volume := none, recommendationKey := none }

/-- A request in which every datum is missing. -/
def bundleNone : StockBundle :=
  { currentPrice := none, rsi := none, priceVsSMA200 := none, priceVsSMA50 := none,
    priceVsSMA20 := none, macd := none, macdSignal := none, macdHistogram := none,
    bbPercentB := none, stochK := none, stochD := none, volumeRatio := none, momentum := none,
    oneYearReturn := none, fiveYearReturn := none, sector := "", industry := "",
    tickerPresent := false, info := infoNone, hist := [] }

/-- The sub-scores the pipeline produces for the all-missing request. -/
def bundleNoneScores : ScoreSet :=
  { technical := 0, fundamental := 0, momentum := 0, value := 50, growth := 50 }

/-- The enterprise value of a DCF outcome, when one was returned. -/
def dcfEnterpriseValue : DCFRes → Option ℚ
  | DCFRes.ok res => some res.enterprise_value
  | _ => none

/-- Fundamentals for the concrete sentiment example: doubled volume, a
`'buy'` analyst key, 10% institutional ownership. -/
def infoSent : Info :=
  { infoNone with
    averageVolume := some 100, volume := some 200,
    recommendationKey := some "buy", heldPercentInstitutions := some 10 }

/-- A 20-day close history ending 8% above the close 20 rows back. -/
def histSent : List ℚ :=
  [100, 100, 100, 100, 100, 100, 100, 100, 100, 100,
   100, 100, 100, 100, 100, 100, 100, 100, 100, 108]

/-- The sentiment record the classifier produces on that example. -/
def sentExpected : Sentiment :=
  { overall_sentiment := OverallSent.bullish, retail_interest := Interest.high,
    institutional_interest := Interest.low, analyst_sentiment := AnalystSent.bullish,
    momentum_sentiment := MomSent.bullish, score := 60 }

/-! ## Helper lemmas -/

theorem helper_clamp01 (x : ℚ) : 0 ≤ clamp01 x ∧ clamp01 x ≤ 100 := by
  unfold clamp01
  exact ⟨le_max_left 0 _, max_le (by norm_num) (min_le_left 100 x)⟩

theorem helper_ratioScore (e m : ℤ) (h0 : 0 ≤ e) (h1 : e ≤ m) :
    0 ≤ ratioScore e m ∧ ratioScore e m ≤ 100 := by
  unfold ratioScore
  split_ifs with hm
  · have hm' : (0 : ℚ) < (m : ℚ) := by exact_mod_cast hm
    have he' : (0 : ℚ) ≤ (e : ℚ) := by exact_mod_cast h0
    have h1' : (e : ℚ) ≤ (m : ℚ) := by exact_mod_cast h1
    constructor
    · positivity
    · have : (e : ℚ) / (m : ℚ) ≤ 1 := (div_le_one hm').mpr h1'
      nlinarith
  · norm_num

theorem helper_techRSI (b : StockBundle) :
    0 ≤ (techFactorRSI b).1 ∧ (techFactorRSI b).1 ≤ (techFactorRSI b).2 := by
  unfold techFactorRSI
  rcases b.rsi with _ | v <;> simp <;> split_ifs <;> omega

theorem helper_smaPoints (v : Option ℚ) (above below : ℤ) (h1 : 0 ≤ below)
    (h2 : below ≤ above) : 0 ≤ smaPoints v above below ∧ smaPoints v above below ≤ above := by
  unfold smaPoints
  rcases v with _ | x
  · constructor <;> simp <;> omega
  · dsimp only
    split_ifs <;> constructor <;> omega

theorem helper_techSMA (b : StockBundle) :
    0 ≤ (techFactorSMA b).1 ∧ (techFactorSMA b).1 ≤ (techFactorSMA b).2 := by
  have h1 := helper_smaPoints b.priceVsSMA200 10 2 (by norm_num) (by norm_num)
  have h2 := helper_smaPoints b.priceVsSMA50 8 3 (by norm_num) (by norm_num)
  have h3 := helper_smaPoints b.priceVsSMA20 7 3 (by norm_num) (by norm_num)
  unfold techFactorSMA
  constructor <;> simp <;> omega

theorem helper_techMACD (b : StockBundle) :
    0 ≤ (techFactorMACD b).1 ∧ (techFactorMACD b).1 ≤ (techFactorMACD b).2 := by
  unfold techFactorMACD
  rcases b.macd with _ | m <;> rcases b.macdSignal with _ | s <;>
    rcases b.macdHistogram with _ | h <;> simp <;> split_ifs <;> omega

theorem helper_techBB (b : StockBundle) :
    0 ≤ (techFactorBB b).1 ∧ (techFactorBB b).1 ≤ (techFactorBB b).2 := by
  unfold techFactorBB
  rcases b.bbPercentB with _ | p <;> simp <;> split_ifs <;> omega

theorem helper_techStoch (b : StockBundle) :
    0 ≤ (techFactorStoch b).1 ∧ (techFactorStoch b).1 ≤ (techFactorStoch b).2 := by
  unfold techFactorStoch
  rcases b.stochK with _ | k <;> rcases b.stochD with _ | d <;> simp <;> split_ifs <;> omega

theorem helper_techVolume (b : StockBundle) :
    0 ≤ (techFactorVolume b).1 ∧ (techFactorVolume b).1 ≤ (techFactorVolume b).2 := by
  unfold techFactorVolume
  rcases b.volumeRatio with _ | v <;> simp <;> split_ifs <;> omega

theorem helper_techMomentum (b : StockBundle) :
    0 ≤ (techFactorMomentum b).1 ∧ (techFactorMomentum b).1 ≤ (techFactorMomentum b).2 := by
  unfold techFactorMomentum
  rcases b.momentum with _ | m <;> simp <;> split_ifs <;> omega

theorem helper_techPair (b : StockBundle) :
    0 ≤ (techPair b).1 ∧ (techPair b).1 ≤ (techPair b).2 ∧ 0 < (techPair b).2 := by
  have h1 := helper_techRSI b
  have h2 := helper_techSMA b
  have h3 := helper_techMACD b
  have h4 := helper_techBB b
  have h5 := helper_techStoch b
  have h6 := helper_techVolume b
  have h7 := helper_techMomentum b
  have e2 : (techFactorSMA b).2 = 25 := rfl
  have e3 : (techFactorMACD b).2 = 15 := rfl
  have e4 : (techFactorBB b).2 = 10 := rfl
  have e5 : (techFactorStoch b).2 = 10 := rfl
  have e6 : (techFactorVolume b).2 = 10 := rfl
  have e7 : (techFactorMomentum b).2 = 10 := rfl
  unfold techPair
  refine ⟨by simp <;> omega, by simp <;> omega, ?_⟩
  simp only []
  omega

theorem helper_technicalScore (b : StockBundle) :
    0 ≤ technicalScore b ∧ technicalScore b ≤ 100 := by
  obtain ⟨h0, h1, _⟩ := helper_techPair b
  exact helper_ratioScore _ _ h0 h1

theorem helper_groRevenue (b : StockBundle) :
    0 ≤ (groFactorRevenue b).1 ∧ (groFactorRevenue b).1 ≤ (groFactorRevenue b).2 := by
  unfold groFactorRevenue
  rcases b.info.revenueGrowth with _ | r <;> simp <;> split_ifs <;> omega

theorem helper_groEarnings (b : StockBundle) :
    0 ≤ (groFactorEarnings b).1 ∧ (groFactorEarnings b).1 ≤ (groFactorEarnings b).2 := by
  unfold groFactorEarnings
  rcases b.info.earningsQuarterlyGrowth with _ | e <;> simp <;> split_ifs <;> omega

theorem helper_groPEG (b : StockBundle) :
    0 ≤ (groFactorPEG b).1 ∧ (groFactorPEG b).1 ≤ (groFactorPEG b).2 := by
  unfold groFactorPEG
  rcases b.info.pegRatio with _ | p
  · simp
  · dsimp only
    split_ifs <;> simp

theorem helper_groForwardPE (b : StockBundle) :
    0 ≤ (groFactorForwardPE b).1 ∧ (groFactorForwardPE b).1 ≤ (groFactorForwardPE b).2 := by
  unfold groFactorForwardPE
  rcases b.info.forwardPE with _ | f <;> rcases b.info.trailingPE with _ | t
  · simp
  · simp
  · simp
  · dsimp only
    split_ifs <;> simp

theorem helper_groPair (b : StockBundle) :
    0 ≤ (groPair b).1 ∧ (groPair b).1 ≤ (groPair b).2 := by
  have h1 := helper_groRevenue b
  have h2 := helper_groEarnings b
  have h3 := helper_groPEG b
  have h4 := helper_groForwardPE b
  unfold groPair
  constructor <;> simp <;> omega

theorem helper_growthScore (b : StockBundle) :
    0 ≤ growthScore b ∧ growthScore b ≤ 100 := by
  obtain ⟨h0, h1⟩ := helper_groPair b
  exact helper_ratioScore _ _ h0 h1

theorem helper_scoresOf (b : StockBundle) :
    (0 ≤ (scoresOf b).technical ∧ (scoresOf b).technical ≤ 100) ∧
    (0 ≤ (scoresOf b).fundamental ∧ (scoresOf b).fundamental ≤ 100) ∧
    (0 ≤ (scoresOf b).momentum ∧ (scoresOf b).momentum ≤ 100) ∧
    (0 ≤ (scoresOf b).value ∧ (scoresOf b).value ≤ 100) ∧
    (0 ≤ (scoresOf b).growth ∧ (scoresOf b).growth ≤ 100) := by
  refine ⟨?_, ?_, ?_, ?_, ?_⟩
  · exact helper_technicalScore b
  · exact helper_clamp01 _
  · exact helper_clamp01 _
  · exact helper_clamp01 _
  · exact helper_growthScore b

theorem helper_foldl_add_nonneg (f : ℕ → ℚ) (hf : ∀ x, 0 ≤ f x) :
    ∀ (l : List ℕ) (a : ℚ), 0 ≤ a → 0 ≤ l.foldl (fun acc x => acc + f x) a := by
  intro l
  induction l with
  | nil => intro a ha; simpa
  | cons x t ih =>
    intro a ha
    rw [List.foldl_cons]
    exact ih _ (by have := hf x; linarith)

theorem helper_sum_pos (l : List ℚ) (hnn : ∀ x ∈ l, 0 ≤ x) (x0 : ℚ) (hx0 : x0 ∈ l)
    (hpos : 0 < x0) : 0 < l.sum := by
  induction l with
  | nil => simp at hx0
  | cons a t ih =>
    rw [List.sum_cons]
    rcases List.mem_cons.mp hx0 with h | h
    · subst h
      have ht : 0 ≤ t.sum := List.sum_nonneg (fun x hx => hnn x (List.mem_cons_of_mem _ hx))
      linarith
    · have ha : 0 ≤ a := hnn a (List.mem_cons_self a t)
      have := ih (fun x hx => hnn x (List.mem_cons_of_mem _ hx)) h
      linarith

theorem helper_pipeline_some (b : StockBundle) (s : ScoreSet)
    (h : pipelineScores b = some s) : scoresOf b = s := by
  unfold pipelineScores at h
  split at h
  · cases h
  · exact Option.some.inj h

/-! ## Claim theorems -/

/-- C1, counterexample: the claim says the DCF computation reports
unavailable whenever terminal growth ≥ discount rate and never produces a
negative enterprise value.  At free cash flow 100, growth 0, terminal growth
0.11 > discount rate 0.10, `calculate_dcf` returns a result whose enterprise
value −8669000/1331 ≈ −6513 is negative. -/
theorem C1_dcf_not_failing_closed :
    dcfEnterpriseValue (calculate_dcf 100 0 (11 / 100) (1 / 10) 5 none) =
      some (-8669000 / 1331) ∧ (-8669000 / 1331 : ℚ) < 0 := by
  constructor
  · norm_num [calculate_dcf, dcf_pv_cash_flows, dcf_pv_terminal, dcfEnterpriseValue,
      List.range_succ]
  · norm_num

/-- C1, amended: `calculate_dcf` reports unavailable exactly for free cash
flow ≤ 0; it makes no terminal-growth-vs-discount-rate check (at equality it
divides by zero, above it it can return a negative enterprise value — see the
counterexample), and whenever free cash flow > 0, growth ≥ 0 and
0 ≤ terminal growth < discount rate the returned enterprise value is a
positive (finite) rational. -/
theorem C1_dcf_amended :
    (∀ (fcf g tg r : ℚ) (years : ℕ) (sh : Option ℚ), fcf ≤ 0 →
      calculate_dcf fcf g tg r years sh = DCFRes.unavailable) ∧
    (∀ (fcf g tg r : ℚ) (years : ℕ) (sh : Option ℚ),
      0 < fcf → 0 ≤ g → 0 ≤ tg → tg < r →
      ∃ res, calculate_dcf fcf g tg r years sh = DCFRes.ok res ∧
        0 < res.enterprise_value) := by
  constructor
  · intro fcf g tg r years sh h
    unfold calculate_dcf
    rw [if_pos h]
  · intro fcf g tg r years sh h1 h2 h3 h4
    have hr : 0 < r := lt_of_le_of_lt h3 h4
    have h1r : (0 : ℚ) < 1 + r := by linarith
    have h1g : (0 : ℚ) < 1 + g := by linarith
    have hsub : 0 < r - tg := sub_pos.mpr h4
    have hcond : ¬(r - tg = 0 ∨ (1 ≤ years ∧ 1 + r = 0)) := by
      push_neg
      exact ⟨ne_of_gt hsub, fun _ => by intro hc; linarith⟩
    unfold calculate_dcf
    rw [if_neg (not_le.mpr h1), if_neg hcond]
    refine ⟨_, rfl, ?_⟩
    have hpv : 0 ≤ dcf_pv_cash_flows fcf g r years := by
      unfold dcf_pv_cash_flows
      apply helper_foldl_add_nonneg
      · intro y
        exact div_nonneg (mul_nonneg h1.le (pow_nonneg h1g.le _)) (pow_nonneg h1r.le _)
      · exact le_rfl
    have hpvT : 0 < dcf_pv_terminal fcf g tg r years := by
      unfold dcf_pv_terminal
      have h1tg : (0 : ℚ) < 1 + tg := by linarith
      exact div_pos (div_pos (mul_pos (mul_pos h1 (pow_pos h1g _)) h1tg) hsub) (pow_pos h1r _)
    show 0 < dcf_pv_cash_flows fcf g r years + dcf_pv_terminal fcf g tg r years
    linarith

/-- C1, witness for the amended theorem at concrete inputs. -/
theorem C1_dcf_amended_witness :
    ((-1 : ℚ) ≤ 0 ∧ calculate_dcf (-1) 0 (1 / 40) (1 / 10) 5 none = DCFRes.unavailable) ∧
    ((0 : ℚ) < 100 ∧
      ∃ res, calculate_dcf 100 (1 / 10) (1 / 40) (1 / 10) 5 none = DCFRes.ok res ∧
        0 < res.enterprise_value) := by
  constructor
  · exact ⟨by norm_num, C1_dcf_amended.1 (-1) 0 (1 / 40) (1 / 10) 5 none (by norm_num)⟩
  · exact ⟨by norm_num,
      C1_dcf_amended.2 100 (1 / 10) (1 / 40) (1 / 10) 5 none (by norm_num) (by norm_num)
        (by norm_num) (by norm_num)⟩

/-- C2, counterexample: in the technical sub-score the momentum factor adds
its 10 possible points even when its datum is missing, so on the all-missing
request the denominator is 90 (not 0) and the technical score is 0 — not the
no-data default 50 the dynamic-denominator claim implies. -/
theorem C2_missing_factor_counts_in_denominator :
    bundleNone.momentum = none ∧ techFactorMomentum bundleNone = (0, 10) ∧
    technicalScore bundleNone = 0 := by
  refine ⟨rfl, rfl, ?_⟩
  norm_num [technicalScore, techPair, ratioScore, techFactorRSI, techFactorSMA, smaPoints,
    techFactorMACD, techFactorBB, techFactorStoch, techFactorVolume, techFactorMomentum,
    bundleNone, infoNone]

/-- C2, amended: only the four value factors, the four growth factors and the
PEG/debt-to-equity/current-ratio factors of the fundamental sub-score have a
fully dynamic denominator — each contributes (0 earned, 0 possible) when its
datum is missing.  The remaining factor groups of the technical, fundamental
and momentum sub-scores add their possible points unconditionally, so missing
data there lowers the 0–100 ratio (see the counterexample). -/
theorem C2_dynamic_denominator_amended (b : StockBundle) :
    (b.info.trailingPE = none → valFactorPE b = (0, 0)) ∧
    (b.info.priceToBook = none → valFactorPB b = (0, 0)) ∧
    (b.info.pegRatio = none →
      valFactorPEG b = (0, 0) ∧ groFactorPEG b = (0, 0) ∧ fundFactorPEG b = (0, 0)) ∧
    (b.info.targetMeanPrice = none → valFactorTarget b = (0, 0)) ∧
    (b.info.revenueGrowth = none → groFactorRevenue b = (0, 0)) ∧
    (b.info.earningsQuarterlyGrowth = none → groFactorEarnings b = (0, 0)) ∧
    (b.info.forwardPE = none → groFactorForwardPE b = (0, 0)) ∧
    (b.info.debtToEquity = none → fundFactorDebt b = (0, 0)) ∧
    (b.info.currentRatio = none → fundFactorCurrent b = (0, 0)) := by
  refine ⟨?_, ?_, ?_, ?_, ?_, ?_, ?_, ?_, ?_⟩ <;> intro h <;>
    simp [valFactorPE, valFactorPB, valFactorPEG, groFactorPEG, fundFactorPEG,
      valFactorTarget, groFactorRevenue, groFactorEarnings, groFactorForwardPE,
      fundFactorDebt, fundFactorCurrent, h]

/-- C2, witness for the amended theorem at the all-missing request. -/
theorem C2_dynamic_denominator_witness :
    valFactorPE bundleNone = (0, 0) ∧ valFactorPB bundleNone = (0, 0) ∧
    valFactorPEG bundleNone = (0, 0) ∧ groFactorPEG bundleNone = (0, 0) ∧
    fundFactorPEG bundleNone = (0, 0) ∧ valFactorTarget bundleNone = (0, 0) ∧
    groFactorRevenue bundleNone = (0, 0) ∧ groFactorEarnings bundleNone = (0, 0) ∧
    groFactorForwardPE bundleNone = (0, 0) ∧ fundFactorDebt bundleNone = (0, 0) ∧
    fundFactorCurrent bundleNone = (0, 0) := by
  obtain ⟨h1, h2, h3, h4, h5, h6, h7, h8, h9⟩ := C2_dynamic_denominator_amended bundleNone
  obtain ⟨h3a, h3b, h3c⟩ := h3 rfl
  exact ⟨h1 rfl, h2 rfl, h3a, h3b, h3c, h4 rfl, h5 rfl, h6 rfl, h7 rfl, h8 rfl, h9 rfl⟩

/-- C3: the overall weighted score of every returned ScoreSet equals
0.20·technical + 0.25·fundamental + 0.15·momentum + 0.20·value +
0.10·growth — the declared macro (0.05) and sentiment (0.05) weights
contribute nothing because those keys are never in the scores mapping — and
therefore never exceeds 90. -/
theorem C3_overall_weighted_sum (b : StockBundle) (s : ScoreSet)
    (h : pipelineScores b = some s) :
    overallScoreOf s = 20 / 100 * s.technical + 25 / 100 * s.fundamental +
      15 / 100 * s.momentum + 20 / 100 * s.value + 10 / 100 * s.growth ∧
    overallScoreOf s ≤ 90 := by
  obtain rfl := helper_pipeline_some b s h
  have hraw : overallScoreOf (scoresOf b) = 0 + (scoresOf b).technical * (20 / 100) +
      (scoresOf b).fundamental * (25 / 100) + (scoresOf b).momentum * (15 / 100) +
      (scoresOf b).value * (20 / 100) + (scoresOf b).growth * (10 / 100) := rfl
  have hform : overallScoreOf (scoresOf b) = 20 / 100 * (scoresOf b).technical +
      25 / 100 * (scoresOf b).fundamental + 15 / 100 * (scoresOf b).momentum +
      20 / 100 * (scoresOf b).value + 10 / 100 * (scoresOf b).growth := by
    rw [hraw]; ring
  obtain ⟨⟨t1, t2⟩, ⟨f1, f2⟩, ⟨m1, m2⟩, ⟨v1, v2⟩, ⟨g1, g2⟩⟩ := helper_scoresOf b
  constructor
  · exact hform
  · rw [hform]; linarith

/-- C3, witness at the all-missing request (overall score 15). -/
theorem C3_overall_weighted_sum_witness :
    pipelineScores bundleNone = some bundleNoneScores ∧
    overallScoreOf bundleNoneScores = 20 / 100 * bundleNoneScores.technical +
      25 / 100 * bundleNoneScores.fundamental + 15 / 100 * bundleNoneScores.momentum +
      20 / 100 * bundleNoneScores.value + 10 / 100 * bundleNoneScores.growth ∧
    overallScoreOf bundleNoneScores ≤ 90 := by
  have h : pipelineScores bundleNone = some bundleNoneScores := by
    norm_num +decide [pipelineScores, dcfRaises, dcfOutcome, bundleNone, infoNone,
      analyze_sentiment, momentumSentOf, scoresOf, technicalScore, techPair, techFactorRSI,
      techFactorSMA, smaPoints, techFactorMACD, techFactorBB, techFactorStoch,
      techFactorVolume, techFactorMomentum, ratioScore, fundPair, fundFactorPE, fundFactorPEG,
      fundFactorHealth, fundFactorDebt, fundFactorCurrent, fundFactorGrowth, fundFactorMarket,
      sectorOutlookAdj, resilienceAdj, macroEnvOf, momPair, momFactorOneYear, momFactorFiveYear,
      sentimentAdj, retailInterestOf, analystSentOf, instInterestOf, sentimentScoreOf,
      overallSentOf, valPair, valFactorPE, valFactorPB, valFactorPEG, valFactorTarget, dcfAdj,
      dcfPrice, relAdj, calculate_relative_valuation, groPair, groFactorRevenue,
      groFactorEarnings, groFactorPEG, groFactorForwardPE, growthScore, clamp01,
      bundleNoneScores, effPrice]
  exact ⟨h, C3_overall_weighted_sum bundleNone bundleNoneScores h⟩

/-- C4: each of the five sub-scores of every returned ScoreSet lies in
[0,100], with the DCF, relative-valuation, macro and sentiment adjustments
applied and for any pattern of missing data. -/
theorem C4_subscores_in_range (b : StockBundle) (s : ScoreSet)
    (h : pipelineScores b = some s) :
    (0 ≤ s.technical ∧ s.technical ≤ 100) ∧
    (0 ≤ s.fundamental ∧ s.fundamental ≤ 100) ∧
    (0 ≤ s.momentum ∧ s.momentum ≤ 100) ∧
    (0 ≤ s.value ∧ s.value ≤ 100) ∧
    (0 ≤ s.growth ∧ s.growth ≤ 100) := by
  obtain rfl := helper_pipeline_some b s h
  exact helper_scoresOf b

/-- C4, witness at the all-missing request. -/
theorem C4_subscores_in_range_witness :
    pipelineScores bundleNone = some bundleNoneScores ∧
    ((0 ≤ bundleNoneScores.technical ∧ bundleNoneScores.technical ≤ 100) ∧
     (0 ≤ bundleNoneScores.fundamental ∧ bundleNoneScores.fundamental ≤ 100) ∧
     (0 ≤ bundleNoneScores.momentum ∧ bundleNoneScores.momentum ≤ 100) ∧
     (0 ≤ bundleNoneScores.value ∧ bundleNoneScores.value ≤ 100) ∧
     (0 ≤ bundleNoneScores.growth ∧ bundleNoneScores.growth ≤ 100)) := by
  have h : pipelineScores bundleNone = some bundleNoneScores := by
    norm_num +decide [pipelineScores, dcfRaises, dcfOutcome, bundleNone, infoNone,
      analyze_sentiment, momentumSentOf, scoresOf, technicalScore, techPair, techFactorRSI,
      techFactorSMA, smaPoints, techFactorMACD, techFactorBB, techFactorStoch,
      techFactorVolume, techFactorMomentum, ratioScore, fundPair, fundFactorPE, fundFactorPEG,
      fundFactorHealth, fundFactorDebt, fundFactorCurrent, fundFactorGrowth, fundFactorMarket,
      sectorOutlookAdj, resilienceAdj, macroEnvOf, momPair, momFactorOneYear, momFactorFiveYear,
      sentimentAdj, retailInterestOf, analystSentOf, instInterestOf, sentimentScoreOf,
      overallSentOf, valPair, valFactorPE, valFactorPB, valFactorPEG, valFactorTarget, dcfAdj,
      dcfPrice, relAdj, calculate_relative_valuation, groPair, groFactorRevenue,
      groFactorEarnings, groFactorPEG, groFactorForwardPE, growthScore, clamp01,
      bundleNoneScores, effPrice]
  exact ⟨h, C4_subscores_in_range bundleNone bundleNoneScores h⟩

/-- C5: every indicator reports unavailable (`none`), with no exception, on
any series shorter than its minimum window — RSI: period+1, MACD: slow,
Bollinger: period, Stochastic: period, ATR: period+1, OBV: 2, Momentum:
period+1. -/
theorem C5_indicator_min_window (prices high low close volume : List ℚ)
    (period fast slow signal : ℕ) (std_dev : ℚ) :
    (prices.length < period + 1 → calculate_rsi prices period = none) ∧
    (prices.length < slow → calculate_macd prices fast slow signal = none) ∧
    (prices.length < period → calculate_bollinger_bands prices period std_dev = none) ∧
    (close.length < period → calculate_stochastic high low close period = none) ∧
    (close.length < period + 1 → calculate_atr high low close period = none) ∧
    (close.length < 2 → calculate_obv close volume = none) ∧
    (prices.length < period + 1 → calculate_momentum prices period = none) := by
  refine ⟨?_, ?_, ?_, ?_, ?_, ?_, ?_⟩ <;> intro h
  · unfold calculate_rsi; rw [if_pos h]
  · unfold calculate_macd; rw [if_pos h]
  · unfold calculate_bollinger_bands; rw [if_pos h]
  · unfold calculate_stochastic; rw [if_pos h]
  · unfold calculate_atr; rw [if_pos h]
  · unfold calculate_obv; rw [if_pos h]
  · unfold calculate_momentum; rw [if_pos h]

/-- C5, witness on a one-point series at the default parameters. -/
theorem C5_indicator_min_window_witness :
    calculate_rsi [1] 14 = none ∧ calculate_macd [1] 12 26 9 = none ∧
    calculate_bollinger_bands [1] 20 2 = none ∧ calculate_stochastic [1] [1] [1] 14 = none ∧
    calculate_atr [1] [1] [1] 14 = none ∧ calculate_obv [1] [1] = none ∧
    calculate_momentum [1] 10 = none := by
  obtain ⟨h1, h2, h3, h4, h5, h6, h7⟩ :=
    C5_indicator_min_window [1] [1] [1] [1] [1] 14 12 26 9 2
  refine ⟨h1 (by decide), h2 (by decide), h3 (by decide), h4 (by decide), h5 (by decide),
    h6 (by decide), ?_⟩
  exact (C5_indicator_min_window [1] [1] [1] [1] [1] 10 12 26 9 2).2.2.2.2.2.2 (by decide)

/-- C6, counterexample: on a strictly rising 15-point series every trailing
delta is positive, the average loss is 0, and the RSI computation returns the
numeric value 100 (the float arithmetic of the source gives `rs = inf`,
`RSI = 100.0`, which is not NaN) instead of reporting unavailable. -/
theorem C6_rsi_all_gains_returns_100 :
    calculate_rsi [1, 2, 3, 4, 5, 6, 7, 8, 9, 10, 11, 12, 13, 14, 15] 14 = some 100 := by
  norm_num [calculate_rsi, diffs, takeLast]

/-- C6, amended: when every delta of the trailing window is non-negative
(average loss 0), the RSI computation reports unavailable only in the
degenerate case that every delta is exactly zero (average gain also 0, NaN in
the source); if any delta is positive it returns the numeric value 100. -/
theorem C6_rsi_zero_loss_amended (prices : List ℚ) (period : ℕ)
    (hlen : period + 1 ≤ prices.length) (hper : 0 < period)
    (hnn : ∀ d ∈ takeLast period (diffs prices), 0 ≤ d) :
    ((∀ d ∈ takeLast period (diffs prices), d = 0) → calculate_rsi prices period = none) ∧
    ((∃ d ∈ takeLast period (diffs prices), 0 < d) →
      calculate_rsi prices period = some 100) := by
  have hguard : ¬prices.length < period + 1 := not_lt.mpr hlen
  have hloss : ((takeLast period (diffs prices)).map
      (fun d => if d < 0 then -d else 0)).sum = 0 := by
    apply List.sum_eq_zero
    intro x hx
    rw [List.mem_map] at hx
    obtain ⟨d, hd, rfl⟩ := hx
    rw [if_neg (not_lt.mpr (hnn d hd))]
  constructor
  · intro hz
    have hgain : ((takeLast period (diffs prices)).map
        (fun d => if 0 < d then d else 0)).sum = 0 := by
      apply List.sum_eq_zero
      intro x hx
      rw [List.mem_map] at hx
      obtain ⟨d, hd, rfl⟩ := hx
      rw [hz d hd]
      simp
    unfold calculate_rsi
    rw [if_neg hguard]
    simp [hloss, hgain]
  · rintro ⟨d0, hd0, hpos⟩
    have hgain : 0 < ((takeLast period (diffs prices)).map
        (fun d => if 0 < d then d else 0)).sum := by
      apply helper_sum_pos _ _ ((if 0 < d0 then d0 else 0)) _ _
      · intro x hx
        rw [List.mem_map] at hx
        obtain ⟨d, hd, rfl⟩ := hx
        split_ifs with hc
        · exact hc.le
        · exact le_refl 0
      · exact List.mem_map_of_mem _ hd0
      · rw [if_pos hpos]; exact hpos
    have hper' : (0 : ℚ) < (period : ℚ) := by exact_mod_cast hper
    have hne : ¬((takeLast period (diffs prices)).map
        (fun d => if 0 < d then d else 0)).sum / (period : ℚ) = 0 :=
      ne_of_gt (div_pos hgain hper')
    unfold calculate_rsi
    rw [if_neg hguard]
    simp [hloss, hne]

/-- C6, witness for the amended theorem on the strictly rising series. -/
theorem C6_rsi_zero_loss_witness :
    (∀ d ∈ takeLast 14 (diffs [1, 2, 3, 4, 5, 6, 7, 8, 9, 10, 11, 12, 13, 14, 15]), 0 ≤ d) ∧
    calculate_rsi [1, 2, 3, 4, 5, 6, 7, 8, 9, 10, 11, 12, 13, 14, 15] 14 = some 100 := by
  have hnn : ∀ d ∈ takeLast 14 (diffs [1, 2, 3, 4, 5, 6, 7, 8, 9, 10, 11, 12, 13, 14,
      (15 : ℚ)]), 0 ≤ d := by
    norm_num [takeLast, diffs]
  refine ⟨hnn, ?_⟩
  refine (C6_rsi_zero_loss_amended _ 14 (by norm_num) (by norm_num) hnn).2 ⟨1, ?_, by norm_num⟩
  norm_num [takeLast, diffs]

/-- C7: contrary to the claim of independently reported moving averages, a
60-point series yields no moving averages at all — `calculate_moving_averages`
returns its empty mapping for every series shorter than 200 points, although
the dead per-window conditionals inside it show the independent behaviour was
intended. -/
theorem C7_moving_averages_all_or_nothing :
    calculate_moving_averages (List.replicate 60 1) = none ∧
    (List.replicate 60 (1 : ℚ)).length = 60 := by
  constructor
  · norm_num [calculate_moving_averages]
  · norm_num

/-- C8, counterexample: increasing the trailing P/E from −1 (excluded from
the average, score 0) to 1 (included, far below the market reference) drops
the premium/discount score from 0 to −860/27, so the score is not monotone in
P/E over the whole fundamentals space. -/
theorem C8_premium_not_monotone_from_nonpositive :
    (calculate_relative_valuation { infoNone with trailingPE := some (-1) }).premium_discount
      = 0 ∧
    (calculate_relative_valuation { infoNone with trailingPE := some 1 }).premium_discount
      = -860 / 27 ∧
    (-860 / 27 : ℚ) < 0 := by
  refine ⟨?_, ?_, by norm_num⟩ <;> norm_num [calculate_relative_valuation, infoNone]

/-- C8, amended: within the region the comparison actually uses — both the
old and the new value of the ratio positive — increasing any one of trailing
P/E, price-to-book or price-to-sales while holding the other fields fixed
never decreases the premium/discount score.  (Crossing from non-positive to
positive can decrease it; see the counterexample.) -/
theorem C8_premium_monotone_amended (info : Info) (x y : ℚ) (hx : 0 < x) (hxy : x ≤ y) :
    (calculate_relative_valuation { info with trailingPE := some x }).premium_discount ≤
      (calculate_relative_valuation { info with trailingPE := some y }).premium_discount ∧
    (calculate_relative_valuation { info with priceToBook := some x }).premium_discount ≤
      (calculate_relative_valuation { info with priceToBook := some y }).premium_discount ∧
    (calculate_relative_valuation
        { info with priceToSalesTrailing12Months := some x }).premium_discount ≤
      (calculate_relative_valuation
        { info with priceToSalesTrailing12Months := some y }).premium_discount := by
  have hy : 0 < y := lt_of_lt_of_le hx hxy
  refine ⟨?_, ?_, ?_⟩ <;>
    simp only [calculate_relative_valuation] <;> rw [if_pos hx, if_pos hy]
  · have h1 : x / 22.5 ≤ y / 22.5 := by
      apply div_le_div_of_nonneg_right hxy
      norm_num
    linarith
  · have h1 : x / 3.5 ≤ y / 3.5 := by
      apply div_le_div_of_nonneg_right hxy
      norm_num
    linarith
  · have h1 : x / 2.5 ≤ y / 2.5 := by
      apply div_le_div_of_nonneg_right hxy
      norm_num
    linarith

/-- C8, witness for the amended theorem at 1 ≤ 2 over the empty record. -/
theorem C8_premium_monotone_witness :
    (calculate_relative_valuation { infoNone with trailingPE := some 1 }).premium_discount ≤
      (calculate_relative_valuation { infoNone with trailingPE := some 2 }).premium_discount ∧
    (calculate_relative_valuation { infoNone with priceToBook := some 1 }).premium_discount ≤
      (calculate_relative_valuation { infoNone with priceToBook := some 2 }).premium_discount ∧
    (calculate_relative_valuation
        { infoNone with priceToSalesTrailing12Months := some 1 }).premium_discount ≤
      (calculate_relative_valuation
        { infoNone with priceToSalesTrailing12Months := some 2 }).premium_discount :=
  C8_premium_monotone_amended infoNone 1 2 (by norm_num) (by norm_num)

/-- C9: whenever the sentiment classifier labels retail interest HIGH,
analyst sentiment BULLISH, momentum BULLISH and institutional interest LOW,
the numeric sentiment score is +20 +30 +25 −15 = 60 and, since 60 > 40, the
overall label is BULLISH. -/
theorem C9_sentiment_example (info : Info) (hist : List ℚ) (s : Sentiment)
    (h : analyze_sentiment info hist = s)
    (hr : s.retail_interest = Interest.high) (ha : s.analyst_sentiment = AnalystSent.bullish)
    (hm : s.momentum_sentiment = MomSent.bullish)
    (hi : s.institutional_interest = Interest.low) :
    s.score = 60 ∧ s.overall_sentiment = OverallSent.bullish := by
  subst h
  simp only [analyze_sentiment] at hr ha hm hi ⊢
  rw [ha, hm, hr, hi]
  decide

/-- C9, witness on a concrete request producing exactly those labels. -/
theorem C9_sentiment_example_witness :
    analyze_sentiment infoSent histSent = sentExpected ∧
    sentExpected.score = 60 ∧ sentExpected.overall_sentiment = OverallSent.bullish := by
  have h : analyze_sentiment infoSent histSent = sentExpected := by
    norm_num +decide [analyze_sentiment, momentumSentOf, retailInterestOf, analystSentOf,
      instInterestOf, sentimentScoreOf, overallSentOf, infoSent, infoNone, histSent,
      sentExpected, lastD, upperStr]
  exact ⟨h, C9_sentiment_example infoSent histSent sentExpected h rfl rfl rfl rfl⟩
